import Mathlib

/-!
Verification of the natural-language specification of `telegram-dify-bot`
against a shallow Lean embedding of its source.

The embedding mirrors, file by file:
* `src/app/mybot/services/interaction_service.py` (the interaction classifier),
* `src/app/mybot/services/telegram_media_service.py` and
  `src/app/mybot/handlers/command_handler/parse_command.py` (adaptive media
  delivery),
* `src/app/mybot/services/response_service.py` (the streaming response
  orchestrator; this regular module shadows the `response_service/` namespace
  directory at import time, so it is the live orchestrator),
* `src/app/mybot/services/response_service/node.py` and
  `src/app/mybot/services/response_service/answer_parts/final_answer.py`
  (the render fallback chain).

Machine integers do not overflow in any of the modelled code paths (sizes and
counts are plain Python ints), so sizes are `Nat` and chat ids are `Int`.
Wall-clock timestamps (`time.time()`) are modelled as rationals.  Code that
the repository imports but that is absent from the source tree (the instant
view renderer, the image compressor, the agent-strategy constants) is
modelled from the spec and marked `Modelled from the spec:` at its
definition.
-/

namespace TgBot

/-- Python truthiness of an optional string: `None` and `""` are falsy. -/
def strTruthy : Option String → Bool
  | none => false
  | some s => !s.isEmpty

/-- Python slice `s[a:b]` on character positions (clamping, `a ≤ b` use). -/
def sliceChars (s : String) (a b : Nat) : List Char :=
  (s.toList.drop a).take (b - a)

/-- A Telegram message entity, keeping the fields
`interaction_service._is_mention_bot` reads: `entity.type`, `entity.offset`,
`entity.length`. -/
structure MsgEntity where
  etype : String
  offset : Nat
  length : Nat
deriving DecidableEq, Repr

/-- The sender of a message (`message.from_user`): the fields
`_determine_task_type` reads are `is_bot` and `username` (which Telegram may
leave unset, hence `Option`). -/
structure Sender where
  is_bot : Bool
  username : Option String
deriving DecidableEq, Repr

/-- The message a message replies to (`message.reply_to_message`), keeping
only the field the classifier reads: its sender. -/
structure ReplyMsg where
  from_user : Sender
deriving DecidableEq, Repr

/-- An inbound Telegram message, keeping the fields the classifier reads:
`text`, `caption`, `entities`, `caption_entities`, `reply_to_message`,
`from_user`, and whether `message.photo` is non-empty. -/
structure Msg where
  text : Option String
  caption : Option String
  entities : List MsgEntity
  caption_entities : List MsgEntity
  reply_to_message : Option ReplyMsg
  from_user : Sender
  photo : Bool
deriving DecidableEq, Repr

/-- `interaction_service._is_mention_bot`: scans text entities (when
`message.text` is truthy) and caption entities (when `message.caption` is
truthy) for a `"mention"` entity whose mentioned username — the slice
`text[offset+1 : offset+length]`, skipping the `@` — equals the bot's
username. -/
def is_mention_bot (m : Msg) (bot_username : String) : Bool :=
  (strTruthy m.text &&
    m.entities.any (fun e =>
      e.etype == "mention" &&
        sliceChars (m.text.getD "") (e.offset + 1) (e.offset + e.length)
          == bot_username.toList))
  ||
  (strTruthy m.caption &&
    m.caption_entities.any (fun e =>
      e.etype == "mention" &&
        sliceChars (m.caption.getD "") (e.offset + 1) (e.offset + e.length)
          == bot_username.toList))

/-- `models.TaskType` (the `IRRELEVANT` member is never produced by the
classifier and is omitted). -/
inductive TaskType where
  | REPLAY
  | MENTION
  | MENTION_WITH_REPLY
  | AUTO
deriving DecidableEq, Repr

/-- `interaction_service._determine_task_type`, line by line:
whitelist guard, self-message guard, the reply branch (reply-to-bot, then
mention-with-reply), the no-entities-and-no-auto guard, plain mention, and
the auto trigger. -/
def determine_task_type (whitelist : List Int) (chat_id : Int) (m : Msg)
    (bot_username : String) (is_auto_trigger : Bool) : Option TaskType :=
  if chat_id ∉ whitelist then
    none
  else if m.from_user.is_bot && m.from_user.username == some bot_username then
    none
  else
    let reply_result : Option TaskType :=
      match m.reply_to_message with
      | some r =>
        if r.from_user.is_bot && r.from_user.username == some bot_username then
          some TaskType.REPLAY
        else if is_mention_bot m bot_username then
          some TaskType.MENTION_WITH_REPLY
        else
          none
      | none => none
    match reply_result with
    | some t => some t
    | none =>
      if !is_auto_trigger && m.entities.isEmpty && m.caption_entities.isEmpty then
        none
      else if is_mention_bot m bot_username then
        some TaskType.MENTION
      else if is_auto_trigger && (strTruthy m.text || m.photo || strTruthy m.caption) then
        some TaskType.AUTO
      else
        none

/-- The classifier exactly as claim C1 words it: rules (1)–(7) in order,
with no self-message guard.  Used only to compare against the code. -/
def claimC1Classifier (whitelist : List Int) (chat_id : Int) (m : Msg)
    (bot_username : String) (is_auto_trigger : Bool) : Option TaskType :=
  if chat_id ∉ whitelist then
    none
  else if (match m.reply_to_message with
           | some r => r.from_user.is_bot && r.from_user.username == some bot_username
           | none => false) then
    some TaskType.REPLAY
  else if m.reply_to_message.isSome && is_mention_bot m bot_username then
    some TaskType.MENTION_WITH_REPLY
  else if !is_auto_trigger && m.entities.isEmpty && m.caption_entities.isEmpty then
    none
  else if is_mention_bot m bot_username then
    some TaskType.MENTION
  else if is_auto_trigger && (strTruthy m.text || m.photo || strTruthy m.caption) then
    some TaskType.AUTO
  else
    none

/-- Claim C1's rule list amended with the one guard the code adds: a message
sent by the bot itself (a bot sender carrying the bot's own username) is
classified `None` right after the allow-list rule. -/
def claimC1Amended (whitelist : List Int) (chat_id : Int) (m : Msg)
    (bot_username : String) (is_auto_trigger : Bool) : Option TaskType :=
  if chat_id ∉ whitelist then
    none
  else if m.from_user.is_bot && m.from_user.username == some bot_username then
    none
  else if (match m.reply_to_message with
           | some r => r.from_user.is_bot && r.from_user.username == some bot_username
           | none => false) then
    some TaskType.REPLAY
  else if m.reply_to_message.isSome && is_mention_bot m bot_username then
    some TaskType.MENTION_WITH_REPLY
  else if !is_auto_trigger && m.entities.isEmpty && m.caption_entities.isEmpty then
    none
  else if is_mention_bot m bot_username then
    some TaskType.MENTION
  else if is_auto_trigger && (strTruthy m.text || m.photo || strTruthy m.caption) then
    some TaskType.AUTO
  else
    none

/-- A message sent by the bot itself (bot sender named `bot`), replying to a
prior bot message, in an allow-listed chat.  Claim C1's rules classify it
`ReplyToBot`; the code classifies it `None`. -/
def selfMsg : Msg :=
  { text := some "hi"
    caption := none
    entities := []
    caption_entities := []
    reply_to_message := some { from_user := { is_bot := true, username := some "bot" } }
    from_user := { is_bot := true, username := some "bot" }
    photo := false }

/-- C1 counterexample: on `selfMsg` the rule list of the claim answers
`ReplyToBot` while `_determine_task_type` answers `None`, so the code does
not implement the claim's rules (1)–(7) as stated. -/
theorem c1_counterexample :
    determine_task_type [1] 1 selfMsg "bot" false = none ∧
    claimC1Classifier [1] 1 selfMsg "bot" false = some TaskType.REPLAY := by
  constructor <;> rfl

/-- C1 (amended): `_determine_task_type` computes exactly the claim's rule
list with one extra guard inserted after the allow-list rule — a message
whose sender is a bot carrying the bot's own username is classified `None`.
Totality and one-of-five output are immediate from the return type, and
determinism is definitional (it is a pure function). -/
theorem c1_amended_classifier_eq (whitelist : List Int) (chat_id : Int) (m : Msg)
    (bot_username : String) (is_auto_trigger : Bool) :
    determine_task_type whitelist chat_id m bot_username is_auto_trigger =
      claimC1Amended whitelist chat_id m bot_username is_auto_trigger := by
  unfold determine_task_type claimC1Amended
  by_cases hw : chat_id ∉ whitelist
  · simp [hw]
  · simp only [hw, if_false]
    by_cases hself : (m.from_user.is_bot && m.from_user.username == some bot_username) = true
    · simp [hself]
    · simp only [hself, Bool.false_eq_true, if_false]
      cases hr : m.reply_to_message with
      | none => simp
      | some r =>
        by_cases h1 : (r.from_user.is_bot && r.from_user.username == some bot_username) = true
        · simp [h1]
        · simp only [h1, Bool.false_eq_true, if_false, Option.isSome_some, Bool.true_and]
          by_cases h2 : is_mention_bot m bot_username = true
          · simp [h2]
          · simp [h2]

/-- C10: every message whose sender is a bot carrying the bot's own username
is classified `None`, whatever the chat, allow-list, auto-mode, reply and
mention situation — the bot never classifies its own messages. -/
theorem c10_self_message_guard (whitelist : List Int) (chat_id : Int) (m : Msg)
    (bot_username : String) (is_auto_trigger : Bool)
    (hbot : m.from_user.is_bot = true)
    (hname : m.from_user.username = some bot_username) :
    determine_task_type whitelist chat_id m bot_username is_auto_trigger = none := by
  unfold determine_task_type
  by_cases hw : chat_id ∉ whitelist
  · simp [hw]
  · simp [hw, hbot, hname]

/-- C10 witness: the guard fires on the concrete self-message in the
allow-listed chat 1. -/
theorem c10_self_message_guard_witness :
    selfMsg.from_user.is_bot = true ∧
    selfMsg.from_user.username = some "bot" ∧
    determine_task_type [1] 1 selfMsg "bot" false = none :=
  ⟨rfl, rfl, c10_self_message_guard [1] 1 selfMsg "bot" false rfl rfl⟩

/-! ## Adaptive media delivery
Embedding of `src/app/mybot/services/telegram_media_service.py` and of the
`_send_batch` closure in
`src/app/mybot/handlers/command_handler/parse_command.py`. -/

/-- 20MB direct-upload limit (`URL_LIMIT`). -/
def URL_LIMIT : Nat := 20 * 1024 * 1024

/-- 50MB photo-preview limit (`PREVIEW_LIMIT`). -/
def PREVIEW_LIMIT : Nat := 50 * 1024 * 1024

/-- 2GB video limit in local API mode (`VIDEO_LIMIT`). -/
def VIDEO_LIMIT : Nat := 2 * 1024 * 1024 * 1024

/-- 2GB document limit in local API mode (`DOCUMENT_LIMIT`). -/
def DOCUMENT_LIMIT : Nat := 2 * 1024 * 1024 * 1024

/-- Telegram per-item caption limit (`MAX_CAPTION_LENGTH`). -/
def MAX_CAPTION_LENGTH : Nat := 1024

/-- `utils.file_utils.IMAGE_EXTENSIONS`. -/
def IMAGE_EXTENSIONS : List String :=
  [".jpg", ".jpeg", ".png", ".gif", ".bmp", ".webp", ".tiff"]

/-- `utils.file_utils.VIDEO_EXTENSIONS`. -/
def VIDEO_EXTENSIONS : List String :=
  [".mp4", ".avi", ".mov", ".mkv", ".webm", ".m4v", ".3gp", ".flv"]

/-- `utils.file_utils.MediaType`. -/
inductive MediaType where
  | photo
  | video
  | document
deriving DecidableEq, Repr

/-- `utils.file_utils.get_media_type`, on the lower-cased file suffix. -/
def get_media_type (ext : String) : MediaType :=
  if ext ∈ IMAGE_EXTENSIONS then .photo
  else if ext ∈ VIDEO_EXTENSIONS then .video
  else .document

/-- `telegram_media_service.SendMethod`. -/
inductive SendMethod where
  | photo
  | video
  | document
  | compress_photo
deriving DecidableEq, Repr

/-- A local media file as the media service observes it: its path (an
identifier), `stat().st_size`, its lower-cased suffix, and whether
`Path(file_path).exists()`. -/
structure MediaFile where
  path : String
  size : Nat
  ext : String
  onDisk : Bool
deriving DecidableEq, Repr

/-- `TelegramMediaService.determine_send_method`: the 2GB ceiling first,
then the photo tiers (20MB inline / 50MB compress / else document), the
video tier (2GB), and document for everything else. -/
def determine_send_method (f : MediaFile) : SendMethod :=
  if f.size > DOCUMENT_LIMIT then .document
  else
    match get_media_type f.ext with
    | .photo =>
      if f.size ≤ URL_LIMIT then .photo
      else if f.size ≤ PREVIEW_LIMIT then .compress_photo
      else .document
    | .video =>
      if f.size ≤ VIDEO_LIMIT then .video
      else .document
    | .document => .document

/-- `TelegramMediaService.create_video_media`: the `supports_streaming`
flag is set for every suffix except `.webm`. -/
def video_supports_streaming (f : MediaFile) : Bool :=
  f.ext != ".webm"

/-- One grouped delivery entry: a file paired with the caption chosen for
it during grouping. -/
abbrev MediaEntry := MediaFile × String

/-- The four accumulators of `send_media_batch`'s grouping loop: the
`photos` / `videos` / `documents` lists and the `compressed_files`
temp-path list. -/
structure MediaGroups where
  photos : List MediaEntry
  videos : List MediaEntry
  documents : List MediaEntry
  compressed : List String
deriving DecidableEq, Repr

/-- Modelled from the spec: `utils.image_compressor.compress_image_for_telegram`
is imported but absent from the source tree.  The spec says photos of
20–50MB "attempt recompression"; the compressor is therefore an oracle
returning the compressed file, with `none` standing for the exception path
(`Image compression failed`). -/
def Compressor := MediaFile → Option MediaFile

/-- The grouping loop of `send_media_batch` (`for i, file_info in
enumerate(media_files)`), at position `i`: skip files not on disk, give the
caption only to index 0, then dispatch on `determine_send_method`; the
`compress_photo` branch records the compressed copy for cleanup when its
path changed and routes it by the 50MB preview limit, falling back to a
document (original file) when compression throws. -/
def group_files_go (compressor : Compressor) (i : Nat) :
    List (MediaFile × String) → MediaGroups
  | [] => ⟨[], [], [], []⟩
  | (f, cap) :: rest =>
    let g := group_files_go compressor (i + 1) rest
    if !f.onDisk then g
    else
      let caption := if i == 0 then cap else ""
      match determine_send_method f with
      | .photo => { g with photos := (f, caption) :: g.photos }
      | .compress_photo =>
        match compressor f with
        | some cf =>
          let g2 := if cf.path ≠ f.path then
              { g with compressed := cf.path :: g.compressed } else g
          if cf.size ≤ PREVIEW_LIMIT then
            { g2 with photos := (cf, caption) :: g2.photos }
          else
            { g2 with documents := (cf, caption) :: g2.documents }
        | none => { g with documents := (f, caption) :: g.documents }
      | .video => { g with videos := (f, caption) :: g.videos }
      | .document => { g with documents := (f, caption) :: g.documents }

/-- The grouping loop from index 0. -/
def group_files (compressor : Compressor) (media_files : List (MediaFile × String)) :
    MediaGroups :=
  group_files_go compressor 0 media_files

/-- The body of `_send_media_group`'s batching loop `for i in range(0,
len(media_list), 10): batch = media_list[i : i + 10]`, as structural
recursion on a fuel bounding the number of loop iterations (the loop runs
at most `len(media_list)` times). -/
def chunks10Go : Nat → List MediaEntry → List (List MediaEntry)
  | _, [] => []
  | 0, _ => []
  | fuel + 1, l => l.take 10 :: chunks10Go fuel (l.drop 10)

/-- `_send_media_group`'s batching: `media_list` split into consecutive
slices of at most 10 items. -/
def chunks10 (l : List MediaEntry) : List (List MediaEntry) :=
  chunks10Go l.length l

/-- `_send_media_group`'s per-item caption rule: a caption longer than
`MAX_CAPTION_LENGTH` is replaced by the empty caption. -/
def built_caption (c : String) : String :=
  if c.length > MAX_CAPTION_LENGTH then "" else c

/-- One batch as actually handed to `bot.send_media_group`, captions
truncated. -/
def build_batch (batch : List MediaEntry) : List MediaEntry :=
  batch.map (fun e => (e.1, built_caption e.2))

/-- The batches of one whole `send_media_batch` delivery, in send order:
photo batches, then video batches, then document batches, each split in
tens with captions truncated. -/
def sent_batches (g : MediaGroups) : List (List MediaEntry) :=
  (chunks10 g.photos ++ chunks10 g.videos ++ chunks10 g.documents).map build_batch

/-- The sequential batch sender: call `k` (outcome `env k`) attempts one
batch; a failing call raises, abandoning the remaining batches (`raised`),
and already-sent batches stay sent. -/
def run_batches (env : Nat → Bool) (k : Nat) :
    List (List MediaEntry) → List (List MediaEntry) × Bool
  | [] => ([], false)
  | b :: rest =>
    if env k then
      let r := run_batches env (k + 1) rest
      (b :: r.1, r.2)
    else ([], true)

/-- The observable outcome of one `send_media_batch` call: the batches that
were successfully sent, the compressed temp files cleaned up afterwards
(cleanup runs on both the success and the exception path), and whether the
exception was re-raised to the caller. -/
structure SendOutcome where
  sent : List (List MediaEntry)
  cleanupTemps : List String
  raised : Bool
deriving DecidableEq, Repr

/-- `TelegramMediaService.send_media_batch`: group, batch, send the batches
in order, clean up compressed temp files, and re-raise the first send
failure (`except Exception … raise`). -/
def send_media_batch_run (env : Nat → Bool) (compressor : Compressor)
    (media_files : List (MediaFile × String)) : SendOutcome :=
  let g := group_files compressor media_files
  let r := run_batches env 0 (sent_batches g)
  { sent := r.1, cleanupTemps := g.compressed, raised := r.2 }

/-! ### `_send_batch` inside `parse_command._send_media_files`
The `/parse` command has its own copy of the batch sender, with long-caption
escalation. -/

/-- An observable action of `parse_command._send_batch`: a
`bot.send_media_group` call (with the first sent message id), a
`try_send_as_instant_view` attempt on a message, or the fallback
`bot.send_message` with the long caption's details text. -/
inductive PAction where
  | sendGroup (items : List MediaEntry) (firstId : Nat)
  | instantView (anchor : Nat) (content : String) (ok : Bool)
  | sendDetails (anchor : Nat) (content : String)
deriving DecidableEq, Repr

/-- `_send_batch`'s long-caption test: `if caption and len(caption) >
MAX_CAPTION_LENGTH`. -/
def parse_caption_long (c : String) : Bool :=
  !c.isEmpty && decide (c.length > MAX_CAPTION_LENGTH)

/-- The first item of a batch whose caption is over the limit
(`long_caption_item` is only recorded once: `if not long_caption_item`). -/
def batch_long_item (batch : List MediaEntry) : Option MediaEntry :=
  batch.find? (fun e => parse_caption_long e.2)

/-- The media actually handed to `bot.send_media_group` by `_send_batch`:
over-limit captions are sent empty, all others kept as-is. -/
def parse_build (batch : List MediaEntry) : List MediaEntry :=
  batch.map (fun e => if parse_caption_long e.2 then (e.1, "") else e)

/-- `_send_batch`'s loop over batches (channel sends succeeding, message
ids handed out sequentially from `nextId`): send the built batch; when a
long-caption item was recorded, escalate its full caption through
`try_send_as_instant_view` anchored to the first sent message of the batch
(`sent_messages[0]`), falling back on failure to a plain follow-up message
`"📄 媒体文件详情：\n\n" + caption` replying to that same message.
Modelled from the spec: `mybot.services.instant_view_service` is absent
from the source tree, so the instant-view attempt is an oracle `ivOk`. -/
def parse_send_batch_go (ivOk : Nat → Bool) :
    Nat → Nat → List (List MediaEntry) → List PAction
  | _, _, [] => []
  | bIdx, nextId, batch :: rest =>
    let sendAct := PAction.sendGroup (parse_build batch) nextId
    let tail := parse_send_batch_go ivOk (bIdx + 1) (nextId + batch.length) rest
    match batch_long_item batch with
    | some e =>
      if ivOk bIdx then
        sendAct :: .instantView nextId e.2 true :: tail
      else
        sendAct :: .instantView nextId e.2 false ::
          .sendDetails nextId ("📄 媒体文件详情：\n\n" ++ e.2) :: tail
    | none => sendAct :: tail

/-- `_send_batch` on a list of batches, message ids starting at 1. -/
def parse_send_batch (ivOk : Nat → Bool) (batches : List (List MediaEntry)) :
    List PAction :=
  parse_send_batch_go ivOk 0 1 batches

/-! ### Concrete media fixtures -/

/-- A 1-byte photo file. -/
def photoF : MediaFile := ⟨"p.jpg", 1, ".jpg", true⟩

/-- A 1-byte video file. -/
def videoF : MediaFile := ⟨"v.mp4", 1, ".mp4", true⟩

/-- A 30MB photo (scenario C input). -/
def photo30 : MediaFile := ⟨"big.jpg", 30 * 1024 * 1024, ".jpg", true⟩

/-- A 40MB compressed copy of `photo30`. -/
def photo30c : MediaFile := ⟨"big_compressed.jpg", 40 * 1024 * 1024, ".jpg", true⟩

/-- A 60MB compressed copy of `photo30`. -/
def photo30d : MediaFile := ⟨"big_compressed.jpg", 60 * 1024 * 1024, ".jpg", true⟩

/-- A compressor oracle yielding the 40MB copy. -/
def comp40 : Compressor := fun _ => some photo30c

/-- A compressor oracle yielding the 60MB copy. -/
def comp60 : Compressor := fun _ => some photo30d

/-- A 1025-character caption, one over the per-item limit. -/
def cap1025 : String := String.mk (List.replicate 1025 'x')

/-- The transport table exactly as claim C5 words it, as a function of
(kind, size): the 2GB ceiling overrides everything; photos are inline up to
20MB, recompressed up to 50MB, documents beyond; videos are inline up to
2GB; everything else is a document. -/
def transport_decision_claim (kind : MediaType) (size : Nat) : SendMethod :=
  if size > 2 * 1024 * 1024 * 1024 then .document
  else
    match kind with
    | .photo =>
      if size ≤ 20 * 1024 * 1024 then .photo
      else if size ≤ 50 * 1024 * 1024 then .compress_photo
      else .document
    | .video => .video
    | .document => .document

/-- C5: `determine_send_method` is exactly the claim's (kind, size) table —
in particular it depends on the file only through its media kind and size —
the streaming flag is cleared exactly for `.webm`, and a 20–50MB photo is
routed after compression by the 50MB preview limit: inline photo when the
compressed copy fits, document otherwise. -/
theorem c5_transport_decision (f : MediaFile) (compressor : Compressor) (cap : String) :
    determine_send_method f = transport_decision_claim (get_media_type f.ext) f.size ∧
    video_supports_streaming f = (f.ext != ".webm") ∧
    (∀ cf : MediaFile, f.onDisk = true →
      determine_send_method f = SendMethod.compress_photo →
      compressor f = some cf →
      (cf.size ≤ PREVIEW_LIMIT →
        (group_files compressor [(f, cap)]).photos = [(cf, cap)] ∧
        (group_files compressor [(f, cap)]).documents = []) ∧
      (PREVIEW_LIMIT < cf.size →
        (group_files compressor [(f, cap)]).photos = [] ∧
        (group_files compressor [(f, cap)]).documents = [(cf, cap)])) := by
  refine ⟨?_, rfl, ?_⟩
  · unfold determine_send_method transport_decision_claim
      URL_LIMIT PREVIEW_LIMIT VIDEO_LIMIT DOCUMENT_LIMIT
    cases h : get_media_type f.ext <;> simp only [h] <;>
      split_ifs <;> first | rfl | omega
  · intro cf hdisk hm hcf
    unfold group_files group_files_go
    constructor <;> intro hsz
    · simp [hdisk, hm, hcf, hsz]
      split_ifs <;> exact ⟨rfl, rfl⟩
    · simp [hdisk, hm, hcf, Nat.not_le.mpr hsz]
      split_ifs <;> exact ⟨rfl, rfl⟩

/-- C5 witness: the 30MB photo of scenario C is `compress_photo`; a 40MB
compressed copy is delivered as an inline photo, a 60MB one as a
document. -/
theorem c5_transport_decision_witness :
    determine_send_method photo30 = SendMethod.compress_photo ∧
    (group_files comp40 [(photo30, "c")]).photos = [(photo30c, "c")] ∧
    (group_files comp40 [(photo30, "c")]).documents = [] ∧
    (group_files comp60 [(photo30, "c")]).photos = [] ∧
    (group_files comp60 [(photo30, "c")]).documents = [(photo30d, "c")] := by
  have h40 := (c5_transport_decision photo30 comp40 "c").2.2 photo30c rfl (by decide) rfl
  have h60 := (c5_transport_decision photo30 comp60 "c").2.2 photo30d rfl (by decide) rfl
  exact ⟨by decide, (h40.1 (by decide)).1, (h40.1 (by decide)).2,
    (h60.2 (by decide)).1, (h60.2 (by decide)).2⟩

/-- Every batch produced by the batching loop holds at most 10 items. -/
theorem chunks10Go_le_ten :
    ∀ (fuel : Nat) (l : List MediaEntry), ∀ b ∈ chunks10Go fuel l, b.length ≤ 10 := by
  intro fuel
  induction fuel with
  | zero =>
    intro l b hb
    cases l <;> simp [chunks10Go] at hb
  | succ n ih =>
    intro l b hb
    cases l with
    | nil => simp [chunks10Go] at hb
    | cons x xs =>
      simp only [chunks10Go, List.mem_cons] at hb
      rcases hb with hb | hb
      · subst hb
        have := List.length_take 10 (x :: xs)
        simp only [this]
        omega
      · exact ih _ b hb

/-- Joining the batches gives back the input list, in order. -/
theorem chunks10Go_flatten :
    ∀ (fuel : Nat) (l : List MediaEntry), l.length ≤ fuel →
      (chunks10Go fuel l).flatten = l := by
  intro fuel
  induction fuel with
  | zero =>
    intro l h
    have : l = [] := List.length_eq_zero.mp (Nat.le_zero.mp h)
    simp [this, chunks10Go]
  | succ n ih =>
    intro l h
    cases l with
    | nil => simp [chunks10Go]
    | cons x xs =>
      have hd : ((x :: xs).drop 10).length ≤ n := by
        simp only [List.length_drop, List.length_cons]
        simp only [List.length_cons] at h
        omega
      simp only [chunks10Go, List.flatten]
      rw [ih _ hd, List.take_append_drop]

/-- C7: batching splits the input in order into consecutive batches of at
most 10 items whose concatenation is exactly the input (nothing dropped,
nothing duplicated); 12 photos with a within-limit caption on the first
item become exactly two batches of sizes 10 and 2, the caption sitting only
on the first item of the first batch. -/
theorem c7_batching_partition :
    (∀ l : List MediaEntry, (∀ b ∈ chunks10 l, b.length ≤ 10) ∧ (chunks10 l).flatten = l) ∧
    (∀ c : String, c.length ≤ 1024 →
      sent_batches (group_files (fun _ => none)
          [(photoF, c), (photoF, ""), (photoF, ""), (photoF, ""), (photoF, ""),
           (photoF, ""), (photoF, ""), (photoF, ""), (photoF, ""), (photoF, ""),
           (photoF, ""), (photoF, "")]) =
        [[(photoF, c), (photoF, ""), (photoF, ""), (photoF, ""), (photoF, ""),
          (photoF, ""), (photoF, ""), (photoF, ""), (photoF, ""), (photoF, "")],
         [(photoF, ""), (photoF, "")]]) := by
  constructor
  · intro l
    exact ⟨chunks10Go_le_ten l.length l, chunks10Go_flatten l.length l (Nat.le_refl _)⟩
  · intro c hc
    have hcc : ¬ (c.length > MAX_CAPTION_LENGTH) := by
      unfold MAX_CAPTION_LENGTH; omega
    simp [sent_batches, group_files, group_files_go, determine_send_method,
      get_media_type, IMAGE_EXTENSIONS, VIDEO_EXTENSIONS, URL_LIMIT, PREVIEW_LIMIT,
      VIDEO_LIMIT, DOCUMENT_LIMIT, photoF, chunks10, chunks10Go, build_batch,
      built_caption, hcc]

/-- C7 witness: the 12-photo scenario at the concrete caption `"cap"`. -/
theorem c7_batching_partition_witness :
    sent_batches (group_files (fun _ => none)
        [(photoF, "cap"), (photoF, ""), (photoF, ""), (photoF, ""), (photoF, ""),
         (photoF, ""), (photoF, ""), (photoF, ""), (photoF, ""), (photoF, ""),
         (photoF, ""), (photoF, "")]) =
      [[(photoF, "cap"), (photoF, ""), (photoF, ""), (photoF, ""), (photoF, ""),
        (photoF, ""), (photoF, ""), (photoF, ""), (photoF, ""), (photoF, "")],
       [(photoF, ""), (photoF, "")]] :=
  c7_batching_partition.2 "cap" (by decide)

/-- The batch sender attempts the batches strictly in order, each at most
once: what got sent is a prefix of the batch list, and it raises exactly
when some in-range call fails. -/
theorem run_batches_spec (env : Nat → Bool) :
    ∀ (bs : List (List MediaEntry)) (k : Nat),
      (run_batches env k bs).1 <+: bs ∧
      ((run_batches env k bs).2 = true ↔ ∃ i, i < bs.length ∧ env (k + i) = false) := by
  intro bs
  induction bs with
  | nil => intro k; simp [run_batches]
  | cons b rest ih =>
    intro k
    by_cases hk : env k = true
    · have ihk := ih (k + 1)
      constructor
      · simpa [run_batches, hk] using ihk.1
      · simp only [run_batches, hk, if_true]
        rw [ihk.2]
        constructor
        · rintro ⟨i, hi, he⟩
          exact ⟨i + 1, by simpa using hi, by rw [show k + (i + 1) = k + 1 + i by omega]; exact he⟩
        · rintro ⟨i, hi, he⟩
          cases i with
          | zero => simp only [Nat.add_zero] at he; rw [he] at hk; simp at hk
          | succ j =>
            exact ⟨j, by simpa using hi, by rw [show k + 1 + j = k + (j + 1) by omega]; exact he⟩
    · have hk2 : env k = false := by simpa using hk
      constructor
      · simp [run_batches, hk2]
      · constructor
        · intro _
          exact ⟨0, by simp, by simpa using hk2⟩
        · intro _
          simp [run_batches, hk2]

/-- C4 counterexample: with one 1-byte photo and a channel whose
`send_media_group` call fails, `send_media_batch` re-raises the failure to
its caller (`raised = true`) instead of reporting it in a returned value —
there is no `DeliveryReport` in the code. -/
theorem c4_counterexample :
    send_media_batch_run (fun _ => false) (fun _ => none) [(photoF, "cap")] =
      { sent := [], cleanupTemps := [], raised := true } := by
  rfl

/-- C4 (amended): a failed batch send is retried zero times — the batches
actually sent form a prefix of the batch list, so none is attempted twice —
already-sent batches stay sent (no rollback), compressed temp files are
cleaned up on both the success and the failure path, but the failure is
re-raised to the caller (`raised` is true exactly when some in-range
channel call fails) rather than reported in a returned report. -/
theorem c4_failure_semantics (env : Nat → Bool) (compressor : Compressor)
    (media_files : List (MediaFile × String)) :
    (send_media_batch_run env compressor media_files).sent <+:
      sent_batches (group_files compressor media_files) ∧
    ((send_media_batch_run env compressor media_files).raised = true ↔
      ∃ i, i < (sent_batches (group_files compressor media_files)).length ∧ env i = false) ∧
    (send_media_batch_run env compressor media_files).cleanupTemps =
      (group_files compressor media_files).compressed := by
  have h := run_batches_spec env (sent_batches (group_files compressor media_files)) 0
  exact ⟨h.1, by simpa using h.2, rfl⟩

/-- Every entry produced by the grouping loop from position 1 onwards
carries the empty caption (only index 0 receives `file_info['caption']`). -/
theorem group_files_go_all_empty (compressor : Compressor) :
    ∀ (files : List (MediaFile × String)) (i : Nat), 1 ≤ i →
      (∀ e ∈ (group_files_go compressor i files).photos, e.2 = "") ∧
      (∀ e ∈ (group_files_go compressor i files).videos, e.2 = "") ∧
      (∀ e ∈ (group_files_go compressor i files).documents, e.2 = "") := by
  intro files
  induction files with
  | nil =>
    intro i hi
    refine ⟨?_, ?_, ?_⟩ <;> intro e he <;> simp [group_files_go] at he
  | cons fc rest ih =>
    intro i hi
    obtain ⟨f, cap⟩ := fc
    have hib : (i == 0) = false := by
      simp only [beq_eq_false_iff_ne, ne_eq]
      omega
    have ih1 := ih (i + 1) (by omega)
    by_cases hD : f.onDisk = true
    · cases hm : determine_send_method f with
      | photo =>
        simp only [group_files_go, hD, Bool.not_true, Bool.false_eq_true, if_false, hib, hm]
        refine ⟨?_, ih1.2.1, ih1.2.2⟩
        intro e he
        rcases List.mem_cons.mp he with h | h
        · rw [h]
        · exact ih1.1 e h
      | video =>
        simp only [group_files_go, hD, Bool.not_true, Bool.false_eq_true, if_false, hib, hm]
        refine ⟨ih1.1, ?_, ih1.2.2⟩
        intro e he
        rcases List.mem_cons.mp he with h | h
        · rw [h]
        · exact ih1.2.1 e h
      | document =>
        simp only [group_files_go, hD, Bool.not_true, Bool.false_eq_true, if_false, hib, hm]
        refine ⟨ih1.1, ih1.2.1, ?_⟩
        intro e he
        rcases List.mem_cons.mp he with h | h
        · rw [h]
        · exact ih1.2.2 e h
      | compress_photo =>
        cases hcf : compressor f with
        | none =>
          simp only [group_files_go, hD, Bool.not_true, Bool.false_eq_true, if_false, hib,
            hm, hcf]
          refine ⟨ih1.1, ih1.2.1, ?_⟩
          intro e he
          rcases List.mem_cons.mp he with h | h
          · rw [h]
          · exact ih1.2.2 e h
        | some cf =>
          simp only [group_files_go, hD, Bool.not_true, Bool.false_eq_true, if_false, hib,
            hm, hcf]
          split_ifs <;>
            refine ⟨?_, ?_, ?_⟩ <;> intro e he <;>
            simp only [List.mem_cons] at he <;>
            first
            | (rcases he with h | h
               · rw [h]
               · first | exact ih1.1 e h | exact ih1.2.1 e h | exact ih1.2.2 e h)
            | (first | exact ih1.1 e he | exact ih1.2.1 e he | exact ih1.2.2 e he)
    · have hD2 : f.onDisk = false := by simpa using hD
      simp only [group_files_go, hD2, Bool.not_false, if_true]
      exact ih1

/-- C8 counterexample: a delivery whose caption-bearing first input item is
a video, alongside one photo.  Groups are sent photos → videos → documents,
so the first batch actually sent is the photo batch with an empty caption,
while the primary caption `"hi"` rides the second batch. -/
theorem c8_counterexample :
    sent_batches (group_files (fun _ => none) [(videoF, "hi"), (photoF, "")]) =
      [[(photoF, "")], [(videoF, "hi")]] ∧ ("hi" : String) ≠ "" :=
  ⟨rfl, by decide⟩

/-- Unfolding of the grouping loop over its first element when the file is
on disk: index 0 keeps its caption and the entry is prepended to the group
selected by `determine_send_method`. -/
theorem group_files_cons_eq (compressor : Compressor) (f : MediaFile) (c : String)
    (rest : List (MediaFile × String)) (hD : f.onDisk = true) :
    group_files compressor ((f, c) :: rest) =
      (let g1 := group_files_go compressor 1 rest
      match determine_send_method f with
      | .photo => { g1 with photos := (f, c) :: g1.photos }
      | .video => { g1 with videos := (f, c) :: g1.videos }
      | .document => { g1 with documents := (f, c) :: g1.documents }
      | .compress_photo =>
        match compressor f with
        | some cf =>
          let g2 := if cf.path ≠ f.path then
              { g1 with compressed := cf.path :: g1.compressed } else g1
          if cf.size ≤ PREVIEW_LIMIT then { g2 with photos := (cf, c) :: g2.photos }
          else { g2 with documents := (cf, c) :: g2.documents }
        | none => { g1 with documents := (f, c) :: g1.documents }) := by
  cases hm : determine_send_method f <;>
    [skip; skip; skip; cases hcf : compressor f] <;>
    simp [group_files, group_files_go, hD, hm] <;>
    try simp [hcf]

/-- Unfolding of the grouping loop over its first element when the file is
missing from disk: the entry is skipped (`continue`) and its caption is
lost. -/
theorem group_files_cons_skip (compressor : Compressor) (f : MediaFile) (c : String)
    (rest : List (MediaFile × String)) (hD : f.onDisk = false) :
    group_files compressor ((f, c) :: rest) = group_files_go compressor 1 rest := by
  simp [group_files, group_files_go, hD]

/-- C8 (amended): the primary caption is attached to the entry derived from
the first input item, which heads its own kind-group; every other entry
carries an empty caption.  Because the groups are sent in the fixed order
photos, videos, documents, the caption-bearing batch is the first batch of
its own group, not necessarily the first batch of the delivery: when the
first input item resolves to a video, every photo entry (sent first) is
caption-free and the caption heads the videos group. -/
theorem c8_caption_placement (compressor : Compressor) (f : MediaFile) (c : String)
    (rest : List (MediaFile × String)) :
    (∀ e ∈ (group_files compressor ((f, c) :: rest)).photos ++
        (group_files compressor ((f, c) :: rest)).videos ++
        (group_files compressor ((f, c) :: rest)).documents,
      e.2 = "" ∨ (e.2 = c ∧
        ((group_files compressor ((f, c) :: rest)).photos.head? = some e ∨
         (group_files compressor ((f, c) :: rest)).videos.head? = some e ∨
         (group_files compressor ((f, c) :: rest)).documents.head? = some e))) ∧
    (f.onDisk = true → determine_send_method f = SendMethod.video →
      (group_files compressor ((f, c) :: rest)).videos.head? = some (f, c) ∧
      ∀ e ∈ (group_files compressor ((f, c) :: rest)).photos, e.2 = "") := by
  have hall := group_files_go_all_empty compressor rest 1 (Nat.le_refl 1)
  constructor
  · intro e he
    by_cases hD : f.onDisk = true
    · rw [group_files_cons_eq compressor f c rest hD] at he ⊢
      cases hm : determine_send_method f with
      | photo =>
        simp only [hm] at he ⊢
        rcases List.mem_append.mp he with h12 | h3
        · rcases List.mem_append.mp h12 with h1 | h2
          · rcases List.mem_cons.mp h1 with h | h
            · exact Or.inr ⟨by rw [h], Or.inl (by rw [h]; rfl)⟩
            · exact Or.inl (hall.1 e h)
          · exact Or.inl (hall.2.1 e h2)
        · exact Or.inl (hall.2.2 e h3)
      | video =>
        simp only [hm] at he ⊢
        rcases List.mem_append.mp he with h12 | h3
        · rcases List.mem_append.mp h12 with h1 | h2
          · exact Or.inl (hall.1 e h1)
          · rcases List.mem_cons.mp h2 with h | h
            · exact Or.inr ⟨by rw [h], Or.inr (Or.inl (by rw [h]; rfl))⟩
            · exact Or.inl (hall.2.1 e h)
        · exact Or.inl (hall.2.2 e h3)
      | document =>
        simp only [hm] at he ⊢
        rcases List.mem_append.mp he with h12 | h3
        · rcases List.mem_append.mp h12 with h1 | h2
          · exact Or.inl (hall.1 e h1)
          · exact Or.inl (hall.2.1 e h2)
        · rcases List.mem_cons.mp h3 with h | h
          · exact Or.inr ⟨by rw [h], Or.inr (Or.inr (by rw [h]; rfl))⟩
          · exact Or.inl (hall.2.2 e h)
      | compress_photo =>
        cases hcf : compressor f with
        | none =>
          simp only [hm, hcf] at he ⊢
          rcases List.mem_append.mp he with h12 | h3
          · rcases List.mem_append.mp h12 with h1 | h2
            · exact Or.inl (hall.1 e h1)
            · exact Or.inl (hall.2.1 e h2)
          · rcases List.mem_cons.mp h3 with h | h
            · exact Or.inr ⟨by rw [h], Or.inr (Or.inr (by rw [h]; rfl))⟩
            · exact Or.inl (hall.2.2 e h)
        | some cf =>
          simp only [hm, hcf] at he ⊢
          by_cases hfit : cf.size ≤ PREVIEW_LIMIT
          · simp only [hfit, if_true] at he ⊢
            split_ifs at he ⊢ <;>
            · rcases List.mem_append.mp he with h12 | h3
              · rcases List.mem_append.mp h12 with h1 | h2
                · rcases List.mem_cons.mp h1 with h | h
                  · exact Or.inr ⟨by rw [h], Or.inl (by rw [h]; rfl)⟩
                  · exact Or.inl (hall.1 e h)
                · exact Or.inl (hall.2.1 e h2)
              · exact Or.inl (hall.2.2 e h3)
          · simp only [hfit, if_false] at he ⊢
            split_ifs at he ⊢ <;>
            · rcases List.mem_append.mp he with h12 | h3
              · rcases List.mem_append.mp h12 with h1 | h2
                · exact Or.inl (hall.1 e h1)
                · exact Or.inl (hall.2.1 e h2)
              · rcases List.mem_cons.mp h3 with h | h
                · exact Or.inr ⟨by rw [h], Or.inr (Or.inr (by rw [h]; rfl))⟩
                · exact Or.inl (hall.2.2 e h)
    · have hD2 : f.onDisk = false := by simpa using hD
      rw [group_files_cons_skip compressor f c rest hD2] at he
      rcases List.mem_append.mp he with h12 | h3
      · rcases List.mem_append.mp h12 with h1 | h2
        · exact Or.inl (hall.1 e h1)
        · exact Or.inl (hall.2.1 e h2)
      · exact Or.inl (hall.2.2 e h3)
  · intro hD hm
    rw [group_files_cons_eq compressor f c rest hD]
    simp only [hm]
    exact ⟨rfl, hall.1⟩

/-- C8 witness: at the counterexample input the caption heads the videos
group and every photo entry is caption-free. -/
theorem c8_caption_placement_witness :
    (group_files (fun _ => none) [(videoF, "hi"), (photoF, "")]).videos.head? =
      some (videoF, "hi") ∧
    ∀ e ∈ (group_files (fun _ => none) [(videoF, "hi"), (photoF, "")]).photos, e.2 = "" :=
  (c8_caption_placement (fun _ => none) videoF "hi" [(photoF, "")]).2 rfl (by decide)

/-- A truncated caption always fits the per-item limit. -/
theorem built_caption_le (c : String) : (built_caption c).length ≤ MAX_CAPTION_LENGTH := by
  unfold built_caption
  split_ifs with h
  · simp [MAX_CAPTION_LENGTH]
  · omega

set_option maxRecDepth 8192 in
/-- C9 counterexample: a single photo with a 1025-character caption goes
through `TelegramMediaService.send_media_batch` successfully, but the item
is sent with an empty caption and the outcome carries the caption text
nowhere: it is silently discarded, with no follow-up escalation. -/
theorem c9_counterexample :
    send_media_batch_run (fun _ => true) (fun _ => none) [(photoF, cap1025)] =
      { sent := [[(photoF, "")]], cleanupTemps := [], raised := false } ∧
    cap1025.length = 1025 := by
  constructor <;> rfl

/-- C9 (amended): in `TelegramMediaService._send_media_group` an over-limit
caption is replaced by the empty caption — every caption actually sent fits
the 1024-character limit and the overflowing text is dropped without any
follow-up — whereas the `/parse` command's `_send_batch` sends the item
with an empty caption and escalates the full caption text through the
instant-view service anchored to the first message of the sent batch,
falling back to a plain follow-up details message when that fails. -/
theorem c9_caption_overflow :
    (∀ c : String, MAX_CAPTION_LENGTH < c.length → built_caption c = "") ∧
    (∀ (env : Nat → Bool) (compressor : Compressor) (files : List (MediaFile × String)),
      ∀ b ∈ (send_media_batch_run env compressor files).sent,
        ∀ e ∈ b, e.2.length ≤ MAX_CAPTION_LENGTH) ∧
    (∀ (ivOk : Nat → Bool) (f : MediaFile) (c : String), MAX_CAPTION_LENGTH < c.length →
      parse_send_batch ivOk [[(f, c)]] =
        if ivOk 0 then
          [PAction.sendGroup [(f, "")] 1, PAction.instantView 1 c true]
        else
          [PAction.sendGroup [(f, "")] 1, PAction.instantView 1 c false,
           PAction.sendDetails 1 ("📄 媒体文件详情：\n\n" ++ c)]) := by
  refine ⟨?_, ?_, ?_⟩
  · intro c h
    unfold built_caption
    simp [h]
  · intro env compressor files b hb e he
    have hpre : (send_media_batch_run env compressor files).sent <+:
        sent_batches (group_files compressor files) :=
      (run_batches_spec env (sent_batches (group_files compressor files)) 0).1
    have hb2 : b ∈ sent_batches (group_files compressor files) := hpre.subset hb
    rcases List.mem_map.mp hb2 with ⟨batch, _, hbuild⟩
    rw [← hbuild] at he
    rcases List.mem_map.mp he with ⟨x, _, hx⟩
    rw [← hx]
    exact built_caption_le x.2
  · intro ivOk f c h
    have hne : c.isEmpty = false := by
      rcases hc : c.isEmpty with _ | _
      · rfl
      · rw [String.isEmpty_iff] at hc
        rw [hc] at h
        simp [MAX_CAPTION_LENGTH] at h
    have hlong : parse_caption_long c = true := by
      simp [parse_caption_long, hne, h]
    by_cases hiv : ivOk 0 = true <;>
      simp [parse_send_batch, parse_send_batch_go, batch_long_item, parse_build,
        hlong, hiv, List.find?]

set_option maxRecDepth 8192 in
/-- C9 witness: the amended behavior at the concrete 1025-character caption,
with a succeeding and a failing instant-view oracle, plus the truncation
bound at the concrete caption. -/
theorem c9_caption_overflow_witness :
    built_caption cap1025 = "" ∧
    parse_send_batch (fun _ => true) [[(photoF, cap1025)]] =
      [PAction.sendGroup [(photoF, "")] 1, PAction.instantView 1 cap1025 true] ∧
    parse_send_batch (fun _ => false) [[(photoF, cap1025)]] =
      [PAction.sendGroup [(photoF, "")] 1, PAction.instantView 1 cap1025 false,
       PAction.sendDetails 1 ("📄 媒体文件详情：\n\n" ++ cap1025)] := by
  have h1025 : MAX_CAPTION_LENGTH < cap1025.length := by
    have : cap1025.length = 1025 := rfl
    rw [this]
    simp [MAX_CAPTION_LENGTH]
  refine ⟨c9_caption_overflow.1 cap1025 h1025, ?_, ?_⟩
  · rw [c9_caption_overflow.2.2 (fun _ => true) photoF cap1025 h1025]
    simp
  · rw [c9_caption_overflow.2.2 (fun _ => false) photoF cap1025 h1025]
    simp

/-! ## Streaming response orchestrator
Embedding of `send_streaming_response` in
`src/app/mybot/services/response_service.py`.  That regular module shadows
the `response_service/` directory (which has no `__init__.py`) at import
time, so it is the orchestrator the handlers actually call.  Wall-clock
readings of `time.time()` are rationals; the channel is an oracle `env`
giving the outcome of each bot API call in order (a failing call raises,
and the embedding reproduces the source's `try`/`except` topology). -/

/-- Modelled from the spec: `models.AgentStrategy.REACT` is imported by the
orchestrator but absent from `src/app/models.py`; the spec calls it the
"reasoning" strategy.  Its concrete value is irrelevant: only equality with
the name recorded from `node_started` matters. -/
def REACT : String := "react"

/-- Modelled from the spec: `models.AgentStrategy.FUNCTION_CALLING`, the
"tool-calling" strategy. -/
def FUNCTION_CALLING : String := "function_calling"

/-- One element of `agent_data["tool_input"]`: the loop uses it only when it
is a dict with both `args` and `name` keys (`wellFormed`); `argsDump`
carries `json.dumps(t["args"])`. -/
structure ToolInput where
  wellFormed : Bool
  name : String
  argsLanguage : Option String
  argsDump : String
deriving DecidableEq, Repr

/-- `agent_data["tool_call_input"]` when present and non-empty: its
`language` key and its `json.dumps` serialization. -/
structure ToolCallInput where
  language : Option String
  dump : String
deriving DecidableEq, Repr

/-- `agent_data.get("output")`: absent/falsy, a plain string, or a dict
whose `llm_response` is extracted. -/
inductive OutputVal where
  | absent
  | str (s : String)
  | obj (llm : String)
deriving DecidableEq, Repr

/-- The `chunk_data["data"]` payload of an `agent_log` event, keeping the
keys the orchestrator reads; `dump` carries `json.dumps(agent_data)` (the
serialized form of the externally produced payload). -/
structure AgentData where
  action : Option String
  action_name : Option String
  output : OutputVal
  tool_input : List ToolInput
  tool_call_name : String
  tool_response : String
  tool_call_input : Option ToolCallInput
  dump : String
deriving DecidableEq, Repr

/-- The `outputs` map of `workflow_finished`, keeping the keys the
orchestrator reads (`answer`, `type`, `extras.is_instant_view`,
`extras.photo_links`, `extras.place_name`). -/
structure FinalOutputs where
  answer : String
  rtype : String
  is_instant_view : Bool
  photo_links : List String
  place_name : String
deriving DecidableEq, Repr

/-- One streamed chunk: the `event` discriminant and the `chunk_data`
fields read by the loop, with Python `.get` defaults. -/
structure Chunk where
  event : Option String
  node_type : String
  title : String
  index : Int
  agent_strategy : Option String
  data : Option AgentData
  status : String
  outputs : Option FinalOutputs
deriving DecidableEq, Repr

/-- The `agent_log` formatting block (response_service.py lines 211–278):
under the ReAct strategy the action and the serialized payload as a JSON
code block; under function-calling the output text, tool calls and tool
response; under any other remembered strategy nothing; with a falsy payload
only the function-calling `status == "start"` thinking line.  The parts are
joined with blank lines. -/
def format_agent_log (strategy : String) (d : Option AgentData) (status : String) : String :=
  let parts : List String :=
    match d with
    | some ad =>
      let action :=
        if strategy == REACT then
          match ad.action with
          | some a => a
          | none => ad.action_name.getD ""
        else ""
      let thought :=
        if strategy == REACT then
          "<pre><code class=\"language-json\">" ++ ad.dump ++ "</code></pre>"
        else ""
      let output_text :=
        if strategy == FUNCTION_CALLING then
          match ad.output with
          | .absent => ""
          | .str s => s
          | .obj llm => llm
        else ""
      let tool_in := if strategy == FUNCTION_CALLING then ad.tool_input else []
      let tc_name := if strategy == FUNCTION_CALLING then ad.tool_call_name else ""
      let t_resp := if strategy == FUNCTION_CALLING then ad.tool_response else ""
      let tc_input := if strategy == FUNCTION_CALLING then ad.tool_call_input else none
      (if action != "" then ["<blockquote>Agent: " ++ action ++ "</blockquote>"] else []) ++
      (if thought != "" then [thought] else []) ++
      (if output_text != "" then [output_text] else []) ++
      (tool_in.foldr (fun t acc =>
        if t.wellFormed then
          ("<blockquote>ToolUse: " ++ t.name ++ "</blockquote>") ::
          ("<pre><code class=\"language-" ++ t.argsLanguage.getD "json" ++ "\">" ++
            t.argsDump ++ "</code></pre>") :: acc
        else acc) []) ++
      (if tc_name != "" then ["<blockquote>ToolUse: " ++ tc_name ++ "</blockquote>"] else []) ++
      (match tc_input with
       | some tci =>
         ["<pre><code class=\"language-" ++ tci.language.getD "json" ++ "\">" ++
           tci.dump ++ "</code></pre>"]
       | none => []) ++
      (if t_resp != "" then ["<pre><code class=\"language-json\">" ++ t_resp ++ "</code></pre>"]
       else [])
    | none =>
      if status == "start" && strategy == FUNCTION_CALLING then
        ["<blockquote>Agent: 🤔 Thinking...</blockquote>"]
      else []
  String.intercalate "\n\n" parts

/-- `"🤔 Planning..."`, the initial visible text. -/
def INITIAL_TEXT : String := "🤔 Planning..."

/-- `"抱歉，处理失败。"`, shown when no usable final result exists. -/
def FAILURE_TEXT : String := "抱歉，处理失败。"

/-- `"抱歉，处理过程中遇到问题，请稍后再试。"`, the outer error handler's text. -/
def ERROR_TEXT : String := "抱歉，处理过程中遇到问题，请稍后再试。"

/-- `AnswerType.GEOLOCATION_IDENTIFICATION`. -/
def GEO_TYPE : String := "geolocation_identification"

/-- A bot API call, tagged by call site (same channel primitive, different
lines of `response_service.py`). -/
inductive BotCall where
  | sendInitial (text : String)
  | editNodeTitle (text : String)
  | editAgentLog (text : String)
  | editInstantView (text : String)
  | editFinalAnswer (text : String)
  | editFailure (text : String)
  | editError (text : String)
  | sendFallbackMessage (text : String)
  | sendStreetPhoto (caption : String)
  | sendStreetGroup (count : Nat) (caption : String)
deriving DecidableEq, Repr

/-- A recorded call: its sequence number, what was called, whether the
channel accepted it (`env idx`), and the wall-clock of the event being
processed when it was issued. -/
structure CallRec where
  idx : Nat
  call : BotCall
  ok : Bool
  tstamp : ℚ
deriving DecidableEq, Repr

/-- The channel-facing state: the next call number and the ordered trace of
calls issued so far. -/
structure BotState where
  idx : Nat
  trace : List CallRec
deriving DecidableEq, Repr

/-- Issue one bot call: outcome read from the oracle, appended to the
trace. -/
def bot_call (env : Nat → Bool) (st : BotState) (c : BotCall) (t : ℚ) : BotState × Bool :=
  let ok := env st.idx
  ({ idx := st.idx + 1, trace := st.trace ++ [⟨st.idx, c, ok, t⟩] }, ok)

/-- The loop-local variables of `send_streaming_response`:
`last_edit_time`, `agent_strategy_name`, `final_result` (`none` while no
`workflow_finished` was seen; `some none` models terminal falsy outputs),
and the latest processed wall-clock (used as the timestamp of post-loop
calls). -/
structure LoopVars where
  last_edit_time : ℚ
  strategy : String
  final_result : Option (Option FinalOutputs)
  now : ℚ
deriving DecidableEq, Repr

/-- The `async for chunk in streaming_generator` loop (lines 177–292):
falsy events are skipped; `workflow_finished` stores the outputs and breaks;
`node_started` records the agent strategy and edits the progress title for
llm/agent nodes (and tool nodes past index 3), exceptions swallowed;
`agent_log` formats the log and edits only when more than 1.5 seconds
passed since `last_edit_time`, which is advanced only when the edit call
succeeded; every other event is ignored. -/
def run_loop (env : Nat → Bool) :
    BotState → LoopVars → List (ℚ × Chunk) → BotState × LoopVars
  | st, ls, [] => (st, ls)
  | st, ls, (t, ch) :: rest =>
    if strTruthy ch.event then
      let ev := ch.event.getD ""
      if ev == "workflow_finished" then
        (st, { ls with final_result := some ch.outputs, now := t })
      else if ev == "node_started" then
        let ls1 :=
          match ch.agent_strategy with
          | some nm => { ls with strategy := nm, now := t }
          | none => { ls with now := t }
        let key_text :=
          if (ch.node_type == "llm" || ch.node_type == "agent") && ch.title != "" then
            "<blockquote>" ++ ch.title ++ "</blockquote>"
          else if ch.node_type == "tool" && ch.title != "" && ch.index > 3 then
            "<blockquote>✨ 工具使用：" ++ ch.title ++ "</blockquote>"
          else ""
        if key_text != "" then
          let r := bot_call env st (.editNodeTitle key_text) t
          run_loop env r.1 ls1 rest
        else
          run_loop env st ls1 rest
      else if ev == "agent_log" then
        let txt := format_agent_log ls.strategy ch.data ch.status
        if txt != "" then
          if t - ls.last_edit_time > 3/2 then
            let r := bot_call env st (.editAgentLog txt) t
            let ls2 :=
              if r.2 then { ls with last_edit_time := t, now := t }
              else { ls with now := t }
            run_loop env r.1 ls2 rest
          else
            run_loop env st { ls with now := t } rest
        else
          run_loop env st { ls with now := t } rest
      else
        run_loop env st { ls with now := t } rest
    else
      run_loop env st ls rest

/-- Legacy `_send_message` (lines 24–50): the two pending parse modes, then
the plain retry; each failure swallowed, stop at the first success. -/
def send_message_attempts (env : Nat → Bool) (st : BotState) (text : String) (t : ℚ) :
    BotState :=
  let r1 := bot_call env st (.sendFallbackMessage text) t
  if r1.2 then r1.1
  else
    let r2 := bot_call env r1.1 (.sendFallbackMessage text) t
    if r2.2 then r2.1
    else (bot_call env r2.1 (.sendFallbackMessage text) t).1

/-- RENDER 3 (lines 362–392): supplementary street-view images for
geolocation answers; a media group (capped at 9 items) for several links,
else a single photo tried over the parse modes and plain; all failures
swallowed inside the helpers. -/
def render_street_view (env : Nat → Bool) (st : BotState) (o : FinalOutputs) (t : ℚ) :
    BotState :=
  if o.rtype == GEO_TYPE && !o.photo_links.isEmpty then
    let caption :=
      if o.place_name != "" then "<code>" ++ o.place_name.trim ++ "</code>"
      else "Street View"
    if o.photo_links.length > 1 then
      (bot_call env st (.sendStreetGroup (min 9 o.photo_links.length) caption) t).1
    else
      let r1 := bot_call env st (.sendStreetPhoto caption) t
      if r1.2 then r1.1
      else
        let r2 := bot_call env r1.1 (.sendStreetPhoto caption) t
        if r2.2 then r2.1
        else (bot_call env r2.1 (.sendStreetPhoto caption) t).1
  else st

/-- The final-result stage (lines 302–397).  With a truthy answer: RENDER 1
edits through the instant-view escape hatch when flagged (the external
renderer — absent from the source tree — is the oracle `ivSuccess` /
`ivContent`; any exception in this tier is caught and rendering falls
through), RENDER 2 edits the answer under the pending parse modes
(exceptions logged, loop continues), RENDER 3 adds street-view images.
Otherwise the failure text is edited in; that call is not individually
guarded, so its failure escapes to the outer handler (second component
`true`). -/
def render_final (env : Nat → Bool) (ivSuccess : Bool) (ivContent : String)
    (st : BotState) (ls : LoopVars) : BotState × Bool :=
  match ls.final_result with
  | some (some o) =>
    if o.answer != "" then
      let step1 :=
        if o.is_instant_view && ivSuccess then
          let r := bot_call env st (.editInstantView ivContent.trim) ls.now
          (r.1, r.2)
        else (st, false)
      if step1.2 then (step1.1, false)
      else
        let r1 := bot_call env step1.1 (.editFinalAnswer o.answer) ls.now
        let st2 :=
          if r1.2 then r1.1
          else (bot_call env r1.1 (.editFinalAnswer o.answer) ls.now).1
        (render_street_view env st2 o ls.now, false)
    else
      let r := bot_call env st (.editFailure FAILURE_TEXT) ls.now
      (r.1, !r.2)
  | some none =>
    let r := bot_call env st (.editFailure FAILURE_TEXT) ls.now
    (r.1, !r.2)
  | none =>
    let r := bot_call env st (.editFailure FAILURE_TEXT) ls.now
    (r.1, !r.2)

/-- `send_streaming_response` (lines 151–412): send the initial planning
message (a failure here reaches the outer handler with no message handle,
which falls back to `_send_message` with the error text), run the event
loop, render the final result; an exception escaping the render stage is
caught by the outer handler, which edits the error text into the visible
message and swallows even that call's failure. -/
def send_streaming_response_run (env : Nat → Bool) (ivSuccess : Bool) (ivContent : String)
    (t0 : ℚ) (stream : List (ℚ × Chunk)) : BotState :=
  let r0 := bot_call env ⟨0, []⟩ (.sendInitial INITIAL_TEXT) t0
  if !r0.2 then
    send_message_attempts env r0.1 ERROR_TEXT t0
  else
    let lr := run_loop env r0.1 ⟨t0, "", none, t0⟩ stream
    let fr := render_final env ivSuccess ivContent lr.1 lr.2
    if fr.2 then
      (bot_call env fr.1 (.editError ERROR_TEXT) lr.2.now).1
    else fr.1

/-- Is a call the `agent_log` progress edit? -/
def isAgentLogCall : BotCall → Bool
  | .editAgentLog _ => true
  | _ => false

/-- The visible (accepted) `agent_log` edits of a trace, in order. -/
def agent_edits (tr : List CallRec) : List CallRec :=
  tr.filter (fun r => r.ok && isAgentLogCall r.call)

/-- The rate-limit gap between two consecutive visible agent-log edits. -/
def gapOK (a b : CallRec) : Prop := a.tstamp + 3/2 < b.tstamp

/-- The last visible agent-log edit (if any) is no later than `q`. -/
def lastLE (l : List CallRec) (q : ℚ) : Prop := ∀ r ∈ l.getLast?, r.tstamp ≤ q

/-- Invariant of the event loop: if the visible agent-log edits so far are
spaced more than 1.5 seconds apart and the last of them is no later than
`last_edit_time`, the same holds after consuming any stream — so the loop
never applies two visible agent-log edits within one 1.5-second window. -/
theorem run_loop_gap (env : Nat → Bool) :
    ∀ (stream : List (ℚ × Chunk)) (st : BotState) (ls : LoopVars),
      (agent_edits st.trace).Chain' gapOK →
      lastLE (agent_edits st.trace) ls.last_edit_time →
      (agent_edits (run_loop env st ls stream).1.trace).Chain' gapOK ∧
      lastLE (agent_edits (run_loop env st ls stream).1.trace)
        (run_loop env st ls stream).2.last_edit_time := by
  intro stream
  induction stream with
  | nil =>
    intro st ls h1 h2
    exact ⟨h1, h2⟩
  | cons head tail ih =>
    obtain ⟨t, ch⟩ := head
    intro st ls h1 h2
    by_cases htr : strTruthy ch.event = true
    · by_cases hwf : (ch.event.getD "" == "workflow_finished") = true
      · simp only [run_loop, htr, if_true, hwf]
        exact ⟨h1, h2⟩
      · by_cases hns : (ch.event.getD "" == "node_started") = true
        · simp only [run_loop, htr, if_true, hwf, Bool.false_eq_true, if_false, hns]
          have hfilt : ∀ (c : BotCall) (ok : Bool), isAgentLogCall c = false →
              agent_edits (st.trace ++ [⟨st.idx, c, ok, t⟩]) = agent_edits st.trace := by
            intro c ok hc
            simp [agent_edits, List.filter_append, hc]
          cases hstrat : ch.agent_strategy with
          | some nm =>
            by_cases hk : (((ch.node_type == "llm" || ch.node_type == "agent") && ch.title != "")
                : Bool) = true
            · simp only [hstrat, hk, if_true]
              by_cases hk2 : (("<blockquote>" ++ ch.title ++ "</blockquote>" : String) != "") = true
              · simp only [hk2, if_true, bot_call]
                refine ih _ _ ?_ ?_
                · rw [hfilt _ _ (by rfl)]; exact h1
                · rw [hfilt _ _ (by rfl)]; exact h2
              · simp only [hk2, Bool.false_eq_true, if_false]
                exact ih _ _ h1 h2
            · simp only [hstrat, hk, Bool.false_eq_true, if_false]
              by_cases hk3 : ((ch.node_type == "tool") && ch.title != "" &&
                  decide (ch.index > 3)) = true
              · simp only [hk3, if_true]
                by_cases hk4 : (("<blockquote>✨ 工具使用：" ++ ch.title ++ "</blockquote>"
                    : String) != "") = true
                · simp only [hk4, if_true, bot_call]
                  refine ih _ _ ?_ ?_
                  · rw [hfilt _ _ (by rfl)]; exact h1
                  · rw [hfilt _ _ (by rfl)]; exact h2
                · simp only [hk4, Bool.false_eq_true, if_false]
                  exact ih _ _ h1 h2
              · simp only [hk3, Bool.false_eq_true, if_false]
                have : (("" : String) != "") = false := by decide
                simp only [this, Bool.false_eq_true, if_false]
                exact ih _ _ h1 h2
          | none =>
            by_cases hk : (((ch.node_type == "llm" || ch.node_type == "agent") && ch.title != "")
                : Bool) = true
            · simp only [hstrat, hk, if_true]
              by_cases hk2 : (("<blockquote>" ++ ch.title ++ "</blockquote>" : String) != "") = true
              · simp only [hk2, if_true, bot_call]
                refine ih _ _ ?_ ?_
                · rw [hfilt _ _ (by rfl)]; exact h1
                · rw [hfilt _ _ (by rfl)]; exact h2
              · simp only [hk2, Bool.false_eq_true, if_false]
                exact ih _ _ h1 h2
            · simp only [hstrat, hk, Bool.false_eq_true, if_false]
              by_cases hk3 : ((ch.node_type == "tool") && ch.title != "" &&
                  decide (ch.index > 3)) = true
              · simp only [hk3, if_true]
                by_cases hk4 : (("<blockquote>✨ 工具使用：" ++ ch.title ++ "</blockquote>"
                    : String) != "") = true
                · simp only [hk4, if_true, bot_call]
                  refine ih _ _ ?_ ?_
                  · rw [hfilt _ _ (by rfl)]; exact h1
                  · rw [hfilt _ _ (by rfl)]; exact h2
                · simp only [hk4, Bool.false_eq_true, if_false]
                  exact ih _ _ h1 h2
              · simp only [hk3, Bool.false_eq_true, if_false]
                have : (("" : String) != "") = false := by decide
                simp only [this, Bool.false_eq_true, if_false]
                exact ih _ _ h1 h2
        · by_cases hal : (ch.event.getD "" == "agent_log") = true
          · simp only [run_loop, htr, if_true, hwf, Bool.false_eq_true, if_false, hns, hal]
            by_cases htxt : (format_agent_log ls.strategy ch.data ch.status != "") = true
            · simp only [htxt, if_true]
              by_cases hgap : t - ls.last_edit_time > 3/2
              · simp only [hgap, if_true, bot_call]
                by_cases henv : env st.idx = true
                · simp only [henv, if_true]
                  refine ih _ _ ?_ ?_
                  · have : agent_edits (st.trace ++
                        [⟨st.idx, .editAgentLog (format_agent_log ls.strategy ch.data ch.status),
                          true, t⟩]) =
                        agent_edits st.trace ++
                        [⟨st.idx, .editAgentLog (format_agent_log ls.strategy ch.data ch.status),
                          true, t⟩] := by
                      simp [agent_edits, List.filter_append, isAgentLogCall]
                    rw [this]
                    rw [List.chain'_append]
                    refine ⟨h1, List.chain'_singleton _, ?_⟩
                    intro x hx y hy
                    simp only [List.head?_cons, Option.mem_def, Option.some.injEq] at hy
                    subst hy
                    have hxle := h2 x hx
                    simp only [gapOK]
                    have : ls.last_edit_time + 3/2 < t := by linarith
                    linarith
                  · have : agent_edits (st.trace ++
                        [⟨st.idx, .editAgentLog (format_agent_log ls.strategy ch.data ch.status),
                          true, t⟩]) =
                        agent_edits st.trace ++
                        [⟨st.idx, .editAgentLog (format_agent_log ls.strategy ch.data ch.status),
                          true, t⟩] := by
                      simp [agent_edits, List.filter_append, isAgentLogCall]
                    rw [this]
                    intro r hr
                    simp only [List.getLast?_append, List.getLast?_singleton, Option.or] at hr
                    simp only [Option.mem_def, Option.some.injEq] at hr
                    subst hr
                    rfl
                · have hfalse : env st.idx = false := by simpa using henv
                  simp only [hfalse, Bool.false_eq_true, if_false]
                  have heq : agent_edits (st.trace ++
                      [⟨st.idx, .editAgentLog (format_agent_log ls.strategy ch.data ch.status),
                        false, t⟩]) = agent_edits st.trace := by
                    simp [agent_edits, List.filter_append]
                  refine ih _ _ ?_ ?_
                  · rw [heq]
                    exact h1
                  · rw [heq]
                    exact h2
              · simp only [hgap, if_false]
                exact ih _ _ h1 h2
            · simp only [htxt, Bool.false_eq_true, if_false]
              exact ih _ _ h1 h2
          · simp only [run_loop, htr, if_true, hwf, Bool.false_eq_true, if_false, hns, hal]
            exact ih _ _ h1 h2
    · have htr2 : strTruthy ch.event = false := by simpa using htr
      simp only [run_loop, htr2, Bool.false_eq_true, if_false]
      exact ih _ _ h1 h2

/-- Appending a non-agent-log call record leaves the visible agent edits
unchanged. -/
theorem agent_edits_append_non (tr : List CallRec) (r : CallRec)
    (h : isAgentLogCall r.call = false) :
    agent_edits (tr ++ [r]) = agent_edits tr := by
  simp [agent_edits, List.filter_append, h]

/-- Appending any stretch of non-agent-log records leaves the visible agent
edits unchanged. -/
theorem agent_edits_append_list (tr s : List CallRec)
    (h : ∀ r ∈ s, isAgentLogCall r.call = false) :
    agent_edits (tr ++ s) = agent_edits tr := by
  unfold agent_edits
  rw [List.filter_append]
  have hs : List.filter (fun r => r.ok && isAgentLogCall r.call) s = [] := by
    rw [List.filter_eq_nil_iff]
    intro r hr
    simp [h r hr]
  rw [hs, List.append_nil]

/-- `_send_message` issues no agent-log edits. -/
theorem send_message_attempts_agent (env : Nat → Bool) (st : BotState) (text : String) (t : ℚ) :
    agent_edits (send_message_attempts env st text t).trace = agent_edits st.trace := by
  unfold send_message_attempts bot_call
  by_cases h1 : env st.idx = true <;> by_cases h2 : env (st.idx + 1) = true <;>
    simp [h1, h2, agent_edits, List.filter_append, isAgentLogCall]

/-- The street-view stage issues no agent-log edits. -/
theorem render_street_view_agent (env : Nat → Bool) (st : BotState) (o : FinalOutputs) (t : ℚ) :
    agent_edits (render_street_view env st o t).trace = agent_edits st.trace := by
  unfold render_street_view bot_call
  by_cases hgeo : (o.rtype == GEO_TYPE && !o.photo_links.isEmpty) = true
  · simp only [hgeo, if_true]
    by_cases hlen : o.photo_links.length > 1
    · simp [hlen, agent_edits, List.filter_append, isAgentLogCall]
    · by_cases h1 : env st.idx = true <;> by_cases h2 : env (st.idx + 1) = true <;>
        simp [hlen, h1, h2, agent_edits, List.filter_append, isAgentLogCall]
  · simp [hgeo]

/-- The final-result stage issues no agent-log edits. -/
theorem render_final_agent (env : Nat → Bool) (ivS : Bool) (ivC : String)
    (st : BotState) (ls : LoopVars) :
    agent_edits (render_final env ivS ivC st ls).1.trace = agent_edits st.trace := by
  unfold render_final
  cases hfr : ls.final_result with
  | none =>
    by_cases h : env st.idx = true <;>
      simp [bot_call, h, agent_edits, List.filter_append, isAgentLogCall]
  | some o =>
    cases o with
    | none =>
      by_cases h : env st.idx = true <;>
        simp [bot_call, h, agent_edits, List.filter_append, isAgentLogCall]
    | some o2 =>
      by_cases ha : (o2.answer != "") = true
      · simp only [ha, if_true]
        by_cases hiv : (o2.is_instant_view && ivS) = true <;>
          by_cases h1 : env st.idx = true <;>
            by_cases h2 : env (st.idx + 1) = true <;>
              by_cases h3 : env (st.idx + 1 + 1) = true <;>
                simp [bot_call, hiv, h1, h2, h3, agent_edits_append_list,
                  render_street_view_agent, isAgentLogCall]
      · by_cases h : env st.idx = true <;>
          simp [ha, bot_call, h, agent_edits, List.filter_append, isAgentLogCall]

/-- The `node_started` fixture: an agent node titled `T` carrying the ReAct
strategy. -/
def nsChunk : Chunk :=
  { event := some "node_started", node_type := "agent", title := "T", index := 0,
    agent_strategy := some REACT, data := none, status := "", outputs := none }

/-- A ReAct `agent_log` payload with an action and a serialized dump. -/
def reactData : AgentData :=
  { action := some "go", action_name := none, output := .absent, tool_input := [],
    tool_call_name := "", tool_response := "", tool_call_input := none, dump := "d" }

/-- The `agent_log` fixture carrying `reactData`. -/
def alChunk : Chunk :=
  { event := some "agent_log", node_type := "", title := "", index := 0,
    agent_strategy := none, data := some reactData, status := "", outputs := none }

/-- The terminal outputs fixture: a truthy plain answer `"ok"`. -/
def wfOutputs : FinalOutputs :=
  { answer := "ok", rtype := "", is_instant_view := false,
    photo_links := [], place_name := "" }

/-- The terminal fixture with a truthy plain answer `"ok"`. -/
def wfChunk : Chunk :=
  { event := some "workflow_finished", node_type := "", title := "", index := 0,
    agent_strategy := none, data := none, status := "", outputs := some wfOutputs }

/-- Evaluation form of Python string truthiness for `simp`. -/
theorem strTruthy_eval (s : String) : strTruthy (some s) = !decide (s = "") := by
  by_cases h : s = ""
  · subst h
    rfl
  · have h2 : s.isEmpty = false := by
      rw [← Bool.not_eq_true]
      intro hc
      exact h ((String.isEmpty_iff s).mp hc)
    simp [strTruthy, h2, h]

/-- C2 counterexample: the stream starts at time 0, an `agent_log` event
with a non-empty formatted ReAct log arrives 1 second later — inside the
1.5-second window — and the workflow finishes at 1.2s.  The orchestrator
never issues any agent-log edit: the burst's latest (and only) `AgentLog`
state is dropped, not eventually shown, before the terminal event. -/
theorem c2_counterexample :
    format_agent_log REACT (some reactData) "" ≠ "" ∧
    ((send_streaming_response_run (fun _ => true) false "" 0
        [(1/2, nsChunk), (1, alChunk), (6/5, wfChunk)]).trace.map
      (fun r => r.call)) =
      [BotCall.sendInitial INITIAL_TEXT,
       BotCall.editNodeTitle "<blockquote>T</blockquote>",
       BotCall.editFinalAnswer "ok"] := by
  constructor
  · decide
  · have hne : (format_agent_log REACT (some reactData) "" != "") = true := by decide
    norm_num [send_streaming_response_run, bot_call, run_loop, render_final,
      render_street_view, strTruthy_eval, nsChunk, alChunk, wfChunk, wfOutputs,
      GEO_TYPE, hne]
    all_goals decide

/-- C2 (amended): the loop applies at most one visible agent-log edit per
1.5-second window — any two consecutive visible agent-log edits of a whole
turn are more than 1.5 seconds apart (whatever the channel outcomes), since
`last_edit_time` advances exactly on accepted agent-log edits; each applied
edit shows the formatted content of the event that triggered it, as the
concrete turn with an out-of-window `agent_log` at t = 2 demonstrates;
`AgentLog` events arriving within 1.5 seconds of the last accepted edit are
skipped outright, so when no later out-of-window event follows, their
content is dropped rather than coalesced into a later edit. -/
theorem c2_rate_limit (env : Nat → Bool) (ivS : Bool) (ivC : String) (t0 : ℚ)
    (stream : List (ℚ × Chunk)) :
    (agent_edits (send_streaming_response_run env ivS ivC t0 stream).trace).Chain' gapOK ∧
    ((send_streaming_response_run (fun _ => true) false "" 0
        [(1/2, nsChunk), (2, alChunk), (5/2, wfChunk)]).trace.map
      (fun r => (r.call, r.ok))) =
      [(BotCall.sendInitial INITIAL_TEXT, true),
       (BotCall.editNodeTitle "<blockquote>T</blockquote>", true),
       (BotCall.editAgentLog (format_agent_log REACT (some reactData) ""), true),
       (BotCall.editFinalAnswer "ok", true)] := by
  constructor
  · unfold send_streaming_response_run
    by_cases h0 : env 0 = true
    · simp only [bot_call, h0, Bool.not_true, Bool.false_eq_true, if_false]
      have hstart : agent_edits ((⟨0, []⟩ : BotState).trace ++
          [⟨(⟨0, []⟩ : BotState).idx, .sendInitial INITIAL_TEXT, true, t0⟩]) = [] := by
        simp [agent_edits, isAgentLogCall]
      have hloop := run_loop_gap env stream
        ⟨(⟨0, []⟩ : BotState).idx + 1,
          (⟨0, []⟩ : BotState).trace ++ [⟨(⟨0, []⟩ : BotState).idx, .sendInitial INITIAL_TEXT,
            true, t0⟩]⟩
        ⟨t0, "", none, t0⟩ (by rw [hstart]; exact List.chain'_nil)
        (by rw [hstart]; intro r hr; simp at hr)
      split_ifs
      · rw [agent_edits_append_non _ _ (by rfl), render_final_agent]
        exact hloop.1
      · rw [render_final_agent]
        exact hloop.1
    · have h0f : env 0 = false := by simpa using h0
      simp only [bot_call, h0f, Bool.not_false, if_true]
      rw [send_message_attempts_agent]
      simp [agent_edits, isAgentLogCall]
  · have hne : (format_agent_log REACT (some reactData) "" != "") = true := by decide
    norm_num [send_streaming_response_run, bot_call, run_loop, render_final,
      render_street_view, strTruthy_eval, nsChunk, alChunk, wfChunk, wfOutputs,
      GEO_TYPE, hne]
    all_goals decide

/-- The event loop leaves `final_result` untouched when the stream carries
no `workflow_finished` event. -/
theorem run_loop_no_term (env : Nat → Bool) :
    ∀ (stream : List (ℚ × Chunk)) (st : BotState) (ls : LoopVars),
      (∀ p ∈ stream, p.2.event ≠ some "workflow_finished") →
      (run_loop env st ls stream).2.final_result = ls.final_result := by
  intro stream
  induction stream with
  | nil =>
    intro st ls _
    rfl
  | cons head tail ih =>
    obtain ⟨t, ch⟩ := head
    intro st ls hterm
    have hh := hterm (t, ch) (List.mem_cons_self _ _)
    have htail : ∀ p ∈ tail, p.2.event ≠ some "workflow_finished" :=
      fun p hp => hterm p (List.mem_cons_of_mem _ hp)
    by_cases htr : strTruthy ch.event = true
    · have hwf : (ch.event.getD "" == "workflow_finished") = false := by
        cases hev : ch.event with
        | none => simp [hev, strTruthy] at htr
        | some s =>
          rw [hev] at hh
          simp only [Option.getD_some]
          simp only [ne_eq, Option.some.injEq] at hh
          simpa using hh
      simp only [run_loop, htr, if_true, hwf, Bool.false_eq_true, if_false]
      by_cases hns : (ch.event.getD "" == "node_started") = true
      · simp only [hns, if_true]
        cases ch.agent_strategy <;> split_ifs <;> exact ih _ _ htail
      · simp only [hns, Bool.false_eq_true, if_false]
        by_cases hal : (ch.event.getD "" == "agent_log") = true
        · simp only [hal, if_true]
          split_ifs <;> exact ih _ _ htail
        · simp only [hal, Bool.false_eq_true, if_false]
          exact ih _ _ htail
    · have htr2 : strTruthy ch.event = false := by simpa using htr
      simp only [run_loop, htr2, Bool.false_eq_true, if_false]
      exact ih _ _ htail

/-- C6: when the stream ends without a `workflow_finished` event the loop
returns no final result and the orchestrator edits the visible message to
the generic failure text, that edit being the turn's last channel call when
the channel cooperates; and under every channel behavior whatsoever the
pipeline still completes normally with some generic failure text attempted
(the initial-send failure path falls back to sending the error text, the
failure-edit's own failure is absorbed by the outer handler) — no exception
escapes to the caller. -/
theorem c6_stream_incomplete (env : Nat → Bool) (ivS : Bool) (ivC : String) (t0 : ℚ)
    (stream : List (ℚ × Chunk))
    (hterm : ∀ p ∈ stream, p.2.event ≠ some "workflow_finished") :
    ((∀ k, env k = true) →
      (send_streaming_response_run env ivS ivC t0 stream).trace.getLast?.map
        (fun r => (r.call, r.ok)) = some (BotCall.editFailure FAILURE_TEXT, true)) ∧
    (∃ r ∈ (send_streaming_response_run env ivS ivC t0 stream).trace,
      r.call = BotCall.editFailure FAILURE_TEXT ∨
      r.call = BotCall.sendFallbackMessage ERROR_TEXT) := by
  constructor
  · intro hall
    unfold send_streaming_response_run
    simp only [bot_call, hall 0, Bool.not_true, Bool.false_eq_true, if_false]
    have hfr := run_loop_no_term env stream
      ⟨0 + 1, [] ++ [⟨0, .sendInitial INITIAL_TEXT, true, t0⟩]⟩ ⟨t0, "", none, t0⟩ hterm
    unfold render_final
    rw [hfr]
    simp only [bot_call, hall _, Bool.not_true, Bool.false_eq_true, if_false]
    simp [List.getLast?_append]
  · unfold send_streaming_response_run
    by_cases h0 : env 0 = true
    · simp only [bot_call, h0, Bool.not_true, Bool.false_eq_true, if_false]
      have hfr := run_loop_no_term env stream
        ⟨0 + 1, [] ++ [⟨0, .sendInitial INITIAL_TEXT, true, t0⟩]⟩ ⟨t0, "", none, t0⟩ hterm
      unfold render_final
      rw [hfr]
      simp only [bot_call]
      split_ifs
      · exact ⟨_, List.mem_append_left _ (List.mem_append_right _
          (List.mem_singleton_self _)), Or.inl rfl⟩
      · exact ⟨_, List.mem_append_right _ (List.mem_singleton_self _), Or.inl rfl⟩
    · have h0f : env 0 = false := by simpa using h0
      simp only [bot_call, h0f, Bool.not_false, if_true]
      unfold send_message_attempts bot_call
      by_cases h1 : env (0 + 1) = true
      · simp only [h1, if_true]
        exact ⟨_, List.mem_append_right _ (List.mem_singleton_self _), Or.inr rfl⟩
      · have h1f : env (0 + 1) = false := by simpa using h1
        simp only [h1f, Bool.false_eq_true, if_false]
        by_cases h2 : env (0 + 1 + 1) = true
        · simp only [h2, if_true]
          exact ⟨_, List.mem_append_left _ (List.mem_append_right _
            (List.mem_singleton_self _)), Or.inr rfl⟩
        · have h2f : env (0 + 1 + 1) = false := by simpa using h2
          simp only [h2f, Bool.false_eq_true, if_false]
          exact ⟨_, List.mem_append_left _ (List.mem_append_left _ (List.mem_append_right _
            (List.mem_singleton_self _))), Or.inr rfl⟩

/-- C6 witness: a stream holding a single `node_started` event and then
ending; with a cooperating channel the visible message ends at the failure
text. -/
theorem c6_stream_incomplete_witness :
    (send_streaming_response_run (fun _ => true) false "" 0 [(1/2, nsChunk)]).trace.getLast?.map
      (fun r => (r.call, r.ok)) = some (BotCall.editFailure FAILURE_TEXT, true) :=
  (c6_stream_incomplete (fun _ => true) false "" 0 [(1/2, nsChunk)]
    (by intro p hp; simp only [List.mem_singleton] at hp; subst hp; decide)).1
    (fun _ => rfl)

/-! ## Render fallback chain
Embedding of `_send_message` / `_handle_message_too_long_fallback` in
`src/app/mybot/services/response_service/node.py` and of
`_handle_answer_parts_final_answer` in
`src/app/mybot/services/response_service/answer_parts/final_answer.py`.
The channel's verdict on each send/edit is an oracle (the message content
itself never influences the chain's control flow — only the error the
channel reports does), and the instant-view renderer — absent from the
source tree — is a second oracle. -/

/-- Python `str.lower` on one character, modelled on the ASCII range (the
only range the compared literals live in; full Unicode lowercasing likewise
never produces an uppercase ASCII letter). -/
def charLower (c : Char) : Char :=
  if h : 65 ≤ c.toNat ∧ c.toNat ≤ 90 then
    Char.ofNatAux (c.toNat + 32) (Or.inl (by omega))
  else c

/-- Python `str.lower`, character-wise. -/
def pyLower (s : String) : String := String.mk (s.data.map charLower)

/-- Python `needle in haystack` on character lists. -/
def hasSub (n : List Char) : List Char → Bool
  | [] => n.isEmpty
  | c :: rest => n.isPrefixOf (c :: rest) || hasSub n rest

/-- Python `needle in haystack` on strings. -/
def pyContains (needle hay : String) : Bool := hasSub needle.data hay.data

/-- node.py line 164/181: `"Message_too_long" in str(err).lower()`. -/
def msg_too_long_lowered (err : String) : Bool :=
  pyContains "Message_too_long" (pyLower err)

/-- final_answer.py line 53: `"Message_too_long" in str(err)`. -/
def msg_too_long_plain (err : String) : Bool :=
  pyContains "Message_too_long" err

/-- Lowercasing never yields a capital `M`. -/
theorem charLower_ne_M (c : Char) : charLower c ≠ 'M' := by
  unfold charLower
  split_ifs with h
  · intro hc
    have h2 : (Char.ofNatAux (c.toNat + 32) (Or.inl (by omega))).toNat = c.toNat + 32 := rfl
    rw [hc] at h2
    have h3 : ('M').toNat = 77 := rfl
    omega
  · intro hc
    rw [hc] at h
    exact h (by constructor <;> decide)

/-- A substring's characters all occur in the haystack. -/
theorem hasSub_subset (n : List Char) :
    ∀ (h : List Char), hasSub n h = true → ∀ c ∈ n, c ∈ h := by
  intro h
  induction h with
  | nil =>
    intro hs c hc
    simp only [hasSub, List.isEmpty_iff] at hs
    rw [hs] at hc
    simp at hc
  | cons x rest ih =>
    intro hs c hc
    simp only [hasSub, Bool.or_eq_true] at hs
    rcases hs with hs | hs
    · have hpre : n <+: (x :: rest) := by
        rwa [← List.isPrefixOf_iff_prefix]
      exact hpre.subset hc
    · exact List.mem_cons_of_mem x (ih hs c hc)

/-- The length-error check of node.py's `_send_message` is dead code: the
needle `"Message_too_long"` starts with a capital `M`, but the haystack has
been lowercased, so the test is false for every error string the channel
can report — the placeholder escalation behind it is unreachable. -/
theorem msg_too_long_lowered_false (s : String) : msg_too_long_lowered s = false := by
  rw [← Bool.not_eq_true]
  intro hc
  have hm : 'M' ∈ ("Message_too_long" : String).data := by decide
  have := hasSub_subset _ _ hc 'M' hm
  simp only [pyLower] at this
  rcases List.mem_map.mp this with ⟨c, _, hcl⟩
  exact charLower_ne_M c hcl

/-- The channel's verdict on one send/edit call. -/
inductive CallOutcome where
  | ok
  | badRequest (msg : String)
  | err
deriving DecidableEq, Repr

/-- Which message an instant-view render targets. -/
inductive RTarget where
  | initialMsg
  | placeholderMsg
deriving DecidableEq, Repr

/-- An observable action of the render chain. -/
inductive RAction where
  | editAnswer (outcome : CallOutcome)
  | sendText (outcome : CallOutcome)
  | placeholderCreate (outcome : CallOutcome)
  | instantView (target : RTarget) (ok : Bool)
deriving DecidableEq, Repr

/-- Does an action create the `"🔄 Loading..."` placeholder message? -/
def isPlaceholder : RAction → Bool
  | .placeholderCreate _ => true
  | _ => false

/-- Render-chain state: channel call counter, instant-view call counter,
trace. -/
structure RState where
  cidx : Nat
  ividx : Nat
  trace : List RAction
deriving DecidableEq, Repr

/-- One channel call, verdict from the oracle. -/
def rcall (env : Nat → CallOutcome) (st : RState) (mk : CallOutcome → RAction) :
    RState × CallOutcome :=
  let o := env st.cidx
  ({ st with cidx := st.cidx + 1, trace := st.trace ++ [mk o] }, o)

/-- One instant-view attempt.  Modelled from the spec: the paginated-
document fallback (`mybot.services.instant_view_service`, absent from the
source tree) returns success or failure for given long-form content. -/
def ivcall (iv : Nat → Bool) (st : RState) (target : RTarget) : RState × Bool :=
  let o := iv st.ividx
  ({ st with ividx := st.ividx + 1, trace := st.trace ++ [.instantView target o] }, o)

/-- node.py `_handle_message_too_long_fallback`: create the placeholder
message, then render the content as an instant view against it; any failure
is caught and reported as `false`. -/
def handle_too_long_fallback (env : Nat → CallOutcome) (iv : Nat → Bool) (st : RState) :
    RState × Bool :=
  let r := rcall env st .placeholderCreate
  match r.2 with
  | .ok =>
    let r2 := ivcall iv r.1 .placeholderMsg
    (r2.1, r2.2)
  | _ => (r.1, false)

/-- node.py `_send_message`: try the two pending parse modes, then plain; a
`BadRequest` whose lowered text contains `"Message_too_long"` would divert
into the placeholder fallback; any other failure falls through to the next
attempt; exhaustion returns `false`. -/
def send_message_node (env : Nat → CallOutcome) (iv : Nat → Bool) (st : RState) :
    RState × Bool :=
  let a1 := rcall env st .sendText
  let k2 : RState → RState × Bool := fun s2 =>
    let a3 := rcall env s2 .sendText
    match a3.2 with
    | .ok => (a3.1, true)
    | .badRequest m =>
      if msg_too_long_lowered m then handle_too_long_fallback env iv a3.1
      else (a3.1, false)
    | .err => (a3.1, false)
  let k1 : RState → RState × Bool := fun s1 =>
    let a2 := rcall env s1 .sendText
    match a2.2 with
    | .ok => (a2.1, true)
    | .badRequest m =>
      if msg_too_long_lowered m then handle_too_long_fallback env iv a2.1
      else k2 a2.1
    | .err => k2 a2.1
  match a1.2 with
  | .ok => (a1.1, true)
  | .badRequest m =>
    if msg_too_long_lowered m then handle_too_long_fallback env iv a1.1
    else k1 a1.1
  | .err => k1 a1.1

/-- final_answer.py's closing fallback: one instant-view attempt against
the initial message; success decides the returned message id. -/
def final_fallback_iv (iv : Nat → Bool) (s : RState) : RState × Bool :=
  let r := ivcall iv s .initialMsg
  (r.1, r.2)

/-- final_answer.py `_handle_answer_parts_final_answer`: optional explicit
instant view first; then the parse-mode loop editing the initial message —
a `BadRequest` containing `"Message_too_long"` diverts into an instant view
against the same initial message (success returns, failure breaks to the
closing fallback), other failures move to the next parse mode — and the
closing instant-view fallback.  No placeholder message exists on this
path. -/
def final_answer_render (env : Nat → CallOutcome) (iv : Nat → Bool) (isIV : Bool)
    (st : RState) : RState × Bool :=
  let step0 :=
    if isIV then
      let r := ivcall iv st .initialMsg
      (r.1, r.2)
    else (st, false)
  if step0.2 then (step0.1, true)
  else
    let sndMode : RState → RState × Bool := fun s =>
      let e2 := rcall env s .editAnswer
      match e2.2 with
      | .ok => (e2.1, true)
      | .badRequest m =>
        if msg_too_long_plain m then
          let r := ivcall iv e2.1 .initialMsg
          if r.2 then (r.1, true) else final_fallback_iv iv r.1
        else final_fallback_iv iv e2.1
      | .err => final_fallback_iv iv e2.1
    let e1 := rcall env step0.1 .editAnswer
    match e1.2 with
    | .ok => (e1.1, true)
    | .badRequest m =>
      if msg_too_long_plain m then
        let r := ivcall iv e1.1 .initialMsg
        if r.2 then (r.1, true) else final_fallback_iv iv r.1
      else sndMode e1.1
    | .err => sndMode e1.1

/-- `_send_message` never creates a placeholder message, whatever the
channel or renderer do: the guard in front of the escalation is dead. -/
theorem send_message_node_no_placeholder (env : Nat → CallOutcome) (iv : Nat → Bool)
    (st : RState) :
    ((send_message_node env iv st).1.trace.countP fun a => isPlaceholder a) =
      (st.trace.countP fun a => isPlaceholder a) := by
  unfold send_message_node rcall
  cases h1 : env st.cidx <;> cases h2 : env (st.cidx + 1) <;>
    cases h3 : env (st.cidx + 1 + 1) <;>
      simp [h1, h2, h3, msg_too_long_lowered_false, isPlaceholder,
        List.countP_append, List.countP_cons]

/-- When every channel attempt reports a `BadRequest`, `_send_message`
returns `false`: the length error is never recognized, so delivery through
this function hard-fails instead of escalating. -/
theorem send_message_node_too_long_fails (iv : Nat → Bool) (st : RState) (m : String) :
    (send_message_node (fun _ => CallOutcome.badRequest m) iv st).2 = false := by
  unfold send_message_node rcall
  simp [msg_too_long_lowered_false]

/-- C3 counterexample: with every channel edit failing as `BadRequest
"Message_too_long"` and the instant-view renderer succeeding, the
final-answer chain delivers by rendering an instant view against the
existing message — its trace holds no placeholder creation, contradicting
the claimed new-placeholder escalation — while `_send_message` (where the
placeholder escalation lives) simply returns `false`, never creating the
placeholder either, because its error check lowercases the string before
searching for a needle containing a capital `M`. -/
theorem c3_counterexample :
    final_answer_render (fun _ => CallOutcome.badRequest "Message_too_long")
        (fun _ => true) false ⟨0, 0, []⟩ =
      (⟨1, 1, [RAction.editAnswer (CallOutcome.badRequest "Message_too_long"),
        RAction.instantView RTarget.initialMsg true]⟩, true) ∧
    send_message_node (fun _ => CallOutcome.badRequest "Message_too_long")
        (fun _ => true) ⟨0, 0, []⟩ =
      (⟨3, 0, [RAction.sendText (CallOutcome.badRequest "Message_too_long"),
        RAction.sendText (CallOutcome.badRequest "Message_too_long"),
        RAction.sendText (CallOutcome.badRequest "Message_too_long")]⟩, false) := by
  constructor <;> rfl

/-- C3 (amended): a final answer whose direct edits all fail with the
channel's length error is still delivered, but via the paginated-document
path applied to the existing message — no new placeholder is created.  The
new-placeholder escalation in `_send_message` is unreachable: its check
lowercases the error string before searching for `"Message_too_long"`
(capital `M`), so it is false on every string, `_send_message` never
creates a placeholder, and when every attempt fails it returns `false`. -/
theorem c3_render_chain_escalation :
    (∀ s : String, msg_too_long_lowered s = false) ∧
    (∀ (env : Nat → CallOutcome) (iv : Nat → Bool) (st : RState),
      ((send_message_node env iv st).1.trace.countP fun a => isPlaceholder a) =
        (st.trace.countP fun a => isPlaceholder a)) ∧
    (∀ (iv : Nat → Bool) (st : RState) (m : String),
      (send_message_node (fun _ => CallOutcome.badRequest m) iv st).2 = false) ∧
    (∀ (env : Nat → CallOutcome) (iv : Nat → Bool) (m : String),
      msg_too_long_plain m = true → env 0 = CallOutcome.badRequest m → iv 0 = true →
      final_answer_render env iv false ⟨0, 0, []⟩ =
        (⟨1, 1, [RAction.editAnswer (CallOutcome.badRequest m),
          RAction.instantView RTarget.initialMsg true]⟩, true)) := by
  refine ⟨msg_too_long_lowered_false, send_message_node_no_placeholder,
    send_message_node_too_long_fails, ?_⟩
  intro env iv m hm henv hiv
  unfold final_answer_render rcall ivcall final_fallback_iv
  simp [henv, hm, hiv]

/-- C3 witness: the amended delivery at the concrete length-error string,
obtained from the amended theorem itself. -/
theorem c3_render_chain_escalation_witness :
    final_answer_render (fun _ => CallOutcome.badRequest "Message_too_long")
        (fun _ => true) false ⟨0, 0, []⟩ =
      (⟨1, 1, [RAction.editAnswer (CallOutcome.badRequest "Message_too_long"),
        RAction.instantView RTarget.initialMsg true]⟩, true) :=
  c3_render_chain_escalation.2.2.2 (fun _ => CallOutcome.badRequest "Message_too_long")
    (fun _ => true) "Message_too_long" (by decide) rfl rfl

end TgBot
